import Mathlib

/-!
Shallow embedding of `camera/qemu-pipeline3/QemuSensor.cpp` (Android goldfish
emulated camera sensor).  Pure state-passing model of the sensor worker loop,
the capture dispatch, the control slot and the readout slot.  Interaction with
the upstream QEMU camera client and with the platform condition variables is
modelled by explicit environments: per-call upstream results, and the slot
state observed when a condition wait returns.  Machine integers: the restart
latch `mLastRequestWidth`/`mLastRequestHeight` is an `Int` initialised to the
sentinel `-1` (as in the source constructor); `uint32_t` products that feed
`queryFrame` buffer sizes are reduced modulo `2 ^ 32`.
-/

/-- Upstream client call result (`status_t`): `NO_ERROR`/`OK` or an error code. -/
inductive Status
  | ok
  | err (code : Int)
deriving DecidableEq, Repr

/-- Sensor device state (`ECDS_*` in the source, `INITIAL/CONNECTED/STARTED` in the spec). -/
inductive DevState
  | initial
  | connected
  | started
deriving DecidableEq, Repr

/-- Dataspace tag; only `DEPTH` is distinguished by the code.  `unspecified`
models a field the source never assigns (the dataSpace of the auxiliary buffer). -/
inductive DataSpace
  | depth
  | unspecified
  | other (code : Nat)
deriving DecidableEq, Repr

/-- A heap byte region: allocation identity plus size in bytes. -/
structure Region where
  id : Nat
  size : Nat
deriving DecidableEq, Repr

/-- An image pointer: `none` is a null pointer, `some r` points at region `r`. -/
abbrev Img := Option Region

def HAL_PIXEL_FORMAT_RGBA_8888 : Nat := 1
def HAL_PIXEL_FORMAT_RGB_888 : Nat := 3
def HAL_PIXEL_FORMAT_BLOB : Nat := 34
def HAL_PIXEL_FORMAT_YCbCr_420_888 : Nat := 35
def HAL_DATASPACE_DEPTH : DataSpace := DataSpace.depth
def V4L2_PIX_FMT_NV21 : Nat := 0x3132564E

/-- Modulus of `uint32_t` arithmetic. -/
def U32_MOD : Nat := 2 ^ 32

/-- One output buffer of a request (fields used by `QemuSensor.cpp`). -/
structure StreamBuffer where
  streamId : Nat
  width : Nat
  height : Nat
  format : Nat
  stride : Nat
  dataSpace : DataSpace
  buffer : Option Nat
  img : Img
deriving DecidableEq, Repr

/-- Ordered, appendable sequence of stream buffers. -/
abbrev Buffers := List StreamBuffer

/-- Observable events of the sensor worker, in program order. -/
inductive Ev
  | vsyncSignal
  | timeSample (t : Int)
  | readoutWait
  | readoutStore (bufs : Buffers) (t : Int)
  | exposureStart (frameNumber : Nat) (t : Int)
  | callStop
  | callStart (pixFmt wdt hgt : Nat)
  | fetchYUV (img : Img) (size : Nat)
  | fetchRGBA (img : Img) (size : Nat)
  | logSkip (format : Nat)
  | strideWarn (wdt strd : Nat)
  | sleepTo (t : Int)
deriving DecidableEq, Repr

/-- Results the upstream client returns for the stop/start calls a single
capture of one buffer may issue. -/
structure CaptureEnv where
  stopRes : Status
  startRes : Status
deriving Repr

/-- The capture-side state of the sensor: the resolution latch
(`mLastRequestWidth`, `mLastRequestHeight`, sentinel `-1`) and `mState`. -/
structure CamState where
  lastRequestWidth : Int
  lastRequestHeight : Int
  devState : DevState
deriving DecidableEq, Repr

/-- Latch and state as the constructor leaves them. -/
def camInit : CamState :=
  { lastRequestWidth := -1, lastRequestHeight := -1, devState := DevState.initial }

/-- Model of `QemuSensor::captureNV21`.  Restart the upstream device when the requested
dimensions differ from the latch; on start failure return early (no fetch).
Fetch size is `(width * height * 12) / 8` in `uint32_t` arithmetic. -/
def captureNV21 (cam : CamState) (env : CaptureEnv) (img : Img)
    (width height stride : Nat) : CamState × List Ev :=
  if (width : Int) ≠ cam.lastRequestWidth ∨ (height : Int) ≠ cam.lastRequestHeight then
    let r1 : CamState × List Ev :=
      if cam.lastRequestWidth ≠ -1 ∨ cam.lastRequestHeight ≠ -1 then
        match env.stopRes with
        | Status.ok => ({ cam with devState := DevState.connected }, [Ev.callStop])
        | Status.err _ => (cam, [Ev.callStop])
      else (cam, [])
    match env.startRes with
    | Status.ok =>
        let cam2 : CamState :=
          { r1.1 with lastRequestWidth := (width : Int),
                      lastRequestHeight := (height : Int),
                      devState := DevState.started }
        (cam2,
         r1.2 ++ [Ev.callStart V4L2_PIX_FMT_NV21 width height] ++
           (if width ≠ stride then [Ev.strideWarn width stride] else []) ++
           [Ev.fetchYUV img ((width * height * 12 % U32_MOD) / 8)])
    | Status.err _ =>
        (r1.1, r1.2 ++ [Ev.callStart V4L2_PIX_FMT_NV21 width height])
  else
    (cam,
     (if width ≠ stride then [Ev.strideWarn width stride] else []) ++
       [Ev.fetchYUV img ((width * height * 12 % U32_MOD) / 8)])

/-- Model of `QemuSensor::captureRGBA`.  Same restart latch; fetch size is
`width * height * 4` in `uint32_t` arithmetic, on the RGBA path. -/
def captureRGBA (cam : CamState) (env : CaptureEnv) (img : Img)
    (width height stride : Nat) : CamState × List Ev :=
  if (width : Int) ≠ cam.lastRequestWidth ∨ (height : Int) ≠ cam.lastRequestHeight then
    let r1 : CamState × List Ev :=
      if cam.lastRequestWidth ≠ -1 ∨ cam.lastRequestHeight ≠ -1 then
        match env.stopRes with
        | Status.ok => ({ cam with devState := DevState.connected }, [Ev.callStop])
        | Status.err _ => (cam, [Ev.callStop])
      else (cam, [])
    match env.startRes with
    | Status.ok =>
        let cam2 : CamState :=
          { r1.1 with lastRequestWidth := (width : Int),
                      lastRequestHeight := (height : Int),
                      devState := DevState.started }
        (cam2,
         r1.2 ++ [Ev.callStart V4L2_PIX_FMT_NV21 width height] ++
           (if width ≠ stride then [Ev.strideWarn width stride] else []) ++
           [Ev.fetchRGBA img ((width * height * 4 % U32_MOD))])
    | Status.err _ =>
        (r1.1, r1.2 ++ [Ev.callStart V4L2_PIX_FMT_NV21 width height])
  else
    (cam,
     (if width ≠ stride then [Ev.strideWarn width stride] else []) ++
       [Ev.fetchRGBA img ((width * height * 4 % U32_MOD))])

/-- Model of `QemuSensor::captureRGB`: not implemented; logs and does nothing. -/
def captureRGB (cam : CamState) (_img : Img) (_width _height _stride : Nat) :
    CamState × List Ev :=
  (cam, [Ev.logSkip HAL_PIXEL_FORMAT_RGB_888])

/-- One step of the per-buffer format switch in `QemuSensor::threadLoop`
(lines 281-315).  Returns the new capture state, the buffer appended to the
sequence (the BLOB auxiliary buffer), the allocation counter, and the events.
`alloc` is the next fresh allocation id. -/
def dispatchBuffer (cam : CamState) (env : CaptureEnv) (b : StreamBuffer)
    (alloc : Nat) : CamState × Option StreamBuffer × Nat × List Ev :=
  if b.format = HAL_PIXEL_FORMAT_RGB_888 then
    let r := captureRGB cam b.img b.width b.height b.stride
    (r.1, none, alloc, r.2)
  else if b.format = HAL_PIXEL_FORMAT_RGBA_8888 then
    let r := captureRGBA cam env b.img b.width b.height b.stride
    (r.1, none, alloc, r.2)
  else if b.format = HAL_PIXEL_FORMAT_BLOB then
    if b.dataSpace = HAL_DATASPACE_DEPTH then
      (cam, none, alloc, [Ev.logSkip b.format])
    else
      let bAux : StreamBuffer :=
        { streamId := 0, width := b.width, height := b.height,
          format := HAL_PIXEL_FORMAT_YCbCr_420_888, stride := b.width,
          dataSpace := DataSpace.unspecified, buffer := none,
          img := some ⟨alloc, b.width * b.height * 3 % U32_MOD⟩ }
      (cam, some bAux, alloc + 1, [])
  else if b.format = HAL_PIXEL_FORMAT_YCbCr_420_888 then
    let r := captureNV21 cam env b.img b.width b.height b.stride
    (r.1, none, alloc, r.2)
  else
    (cam, none, alloc, [Ev.logSkip b.format])

/-- The dispatch loop: `for (i = 0; i < mNextCapturedBuffers->size(); ++i)`,
re-reading the (possibly grown) length each step.  Fuel-indexed; when fuel
runs out the result coincides with the loop-exit result. -/
def dispatchGo (cam : CamState) (cEnv : Nat → CaptureEnv) (bufs : Buffers)
    (i alloc fuel : Nat) : CamState × Buffers × Nat × List Ev :=
  match fuel with
  | 0 => (cam, bufs, alloc, [])
  | fuel + 1 =>
    if h : i < bufs.length then
      let b := bufs.get ⟨i, h⟩
      let s := dispatchBuffer cam (cEnv i) b alloc
      let bufs2 := match s.2.1 with
        | some bAux => bufs ++ [bAux]
        | none => bufs
      let r := dispatchGo s.1 cEnv bufs2 (i + 1) s.2.2.1 fuel
      (r.1, r.2.1, r.2.2.1, s.2.2.2 ++ r.2.2.2)
    else (cam, bufs, alloc, [])

/-- The whole per-buffer loop over a buffer sequence.  Each processed buffer
appends at most one auxiliary buffer (which itself appends none), so
`2 * bufs.length` fuel always reaches the loop exit. -/
def dispatchAll (cam : CamState) (cEnv : Nat → CaptureEnv) (bufs : Buffers)
    (alloc : Nat) : CamState × Buffers × Nat × List Ev :=
  dispatchGo cam cEnv bufs 0 alloc (2 * bufs.length)

/-- Fields of `QemuSensor` guarded by `mControlMutex`. -/
structure ControlState where
  frameDuration : Nat
  nextBuffers : Option Buffers
  frameNumber : Nat
  listener : Option Nat
  gotVSync : Bool
deriving DecidableEq, Repr

/-- Constant `kFrameDurationRange`: 33331760 and 300000000 nanoseconds. -/
def kFrameDurationRange : Nat × Nat := (33331760, 300000000)

/-- Control fields as the constructor leaves them: frame duration
`kFrameDurationRange[0]`, no buffers, frame number 0, no listener, no VSync. -/
def initControlState : ControlState :=
  { frameDuration := kFrameDurationRange.1, nextBuffers := none,
    frameNumber := 0, listener := none, gotVSync := false }

/-- Model of `QemuSensor::setFrameDuration`: stores `ns` under the control mutex. -/
def setFrameDuration (c : ControlState) (ns : Nat) : ControlState :=
  { c with frameDuration := ns }

/-- Model of `QemuSensor::setDestinationBuffers`. -/
def setDestinationBuffers (c : ControlState) (bufs : Option Buffers) : ControlState :=
  { c with nextBuffers := bufs }

/-- Model of `QemuSensor::setFrameNumber`. -/
def setFrameNumber (c : ControlState) (n : Nat) : ControlState :=
  { c with frameNumber := n }

/-- Model of `QemuSensor::setQemuSensorListener`. -/
def setQemuSensorListener (c : ControlState) (l : Option Nat) : ControlState :=
  { c with listener := l }

/-- The values stage 1 of `threadLoop` copies out of the control slot. -/
structure ControlSnapshot where
  frameDuration : Nat
  nextBuffers : Option Buffers
  frameNumber : Nat
  listener : Option Nat
deriving DecidableEq, Repr

/-- Stage 1 of `threadLoop` (lines 203-217): under the control mutex copy the
four control values, clear `mNextBuffers`, set `mGotVSync` and signal VSync
(the signal is the `Ev.vsyncSignal` event the loop emits). -/
def snapshotControl (c : ControlState) : ControlSnapshot × ControlState :=
  (⟨c.frameDuration, c.nextBuffers, c.frameNumber, c.listener⟩,
   { c with nextBuffers := none, gotVSync := true })

/-- Fields of `QemuSensor` guarded by `mReadoutMutex`: the one-slot handoff.
`mCaptureTime` keeps its last value even after the slot is cleared. -/
structure ReadoutState where
  capturedBuffers : Option Buffers
  captureTime : Int
deriving DecidableEq, Repr

/-- The readout handoff of `threadLoop` (lines 248-260).  If the slot still
holds an uncollected set the worker waits ONCE on `mReadoutComplete` (an
`if`, not a `while`); `rAfterWait` is the slot state observed when that wait
returns.  The store then happens unconditionally, regardless of `rAfterWait`,
followed by the `mReadoutAvailable` signal (the `Ev.readoutStore` event). -/
def publishReadout (r : ReadoutState) (rAfterWait : ReadoutState) (bufs : Buffers)
    (t : Int) : ReadoutState × List Ev :=
  match r.capturedBuffers with
  | none =>
      ({ capturedBuffers := some bufs, captureTime := t }, [Ev.readoutStore bufs t])
  | some _ =>
      ({ capturedBuffers := some bufs, captureTime := t },
       [Ev.readoutWait, Ev.readoutStore bufs t])

/-- Result of `Condition::waitRelative`. -/
inductive WaitRes
  | ok
  | timedOut
  | err (code : Int)
deriving DecidableEq, Repr

/-- Model of `QemuSensor::waitForNewFrame` (lines 154-172).  `r` is the readout state
on entry; when the slot is empty the consumer waits once with outcome `res`,
and `rAfter` is the readout state observed when the wait returns.
Returns (return value, readout state on exit, `*captureTime` on exit given
its prior value `tIn`, whether `mReadoutComplete` was signalled). -/
def waitForNewFrame (r : ReadoutState) (res : WaitRes) (rAfter : ReadoutState)
    (tIn : Int) : Bool × ReadoutState × Int × Bool :=
  match r.capturedBuffers with
  | some _ =>
      (true, { r with capturedBuffers := none }, r.captureTime, true)
  | none =>
      match res with
      | WaitRes.timedOut => (false, rAfter, tIn, false)
      | WaitRes.err _ => (false, rAfter, tIn, false)
      | WaitRes.ok =>
          match rAfter.capturedBuffers with
          | none => (false, rAfter, tIn, false)
          | some _ =>
              (true, { rAfter with capturedBuffers := none }, rAfter.captureTime, true)

/-- Whole-sensor state threaded through loop iterations. -/
structure SensorState where
  control : ControlState
  readout : ReadoutState
  nextCapturedBuffers : Option Buffers
  nextCaptureTime : Int
  cam : CamState
  allocCounter : Nat
deriving DecidableEq, Repr

/-- Per-iteration environment: the `systemTime()` samples, the per-buffer
upstream results, and the readout state observed after the handoff wait. -/
structure IterEnv where
  startRealTime : Int
  workDoneRealTime : Int
  readoutAfterWait : ReadoutState
  capEnv : Nat → CaptureEnv

/-- Stage 3 of `threadLoop`: hand the captured set of the previous iteration to the
readout slot, if one exists. -/
def stageReadout (st : SensorState) (env : IterEnv) : ReadoutState × List Ev :=
  match st.nextCapturedBuffers with
  | none => (st.readout, [])
  | some prev => publishReadout st.readout env.readoutAfterWait prev st.nextCaptureTime

/-- Stage 2 of `threadLoop` (lines 265-317): record the capture time, and if a
destination set was snapshotted notify `EXPOSURE_START` (when a listener is
set) and run the per-buffer dispatch loop. -/
def stageCapture (cam : CamState) (cEnv : Nat → CaptureEnv) (alloc : Nat)
    (snap : ControlSnapshot) (t : Int) :
    CamState × Option Buffers × Nat × List Ev :=
  match snap.nextBuffers with
  | none => (cam, none, alloc, [])
  | some bufs =>
      let expEvs : List Ev :=
        match snap.listener with
        | some _ => [Ev.exposureStart snap.frameNumber t]
        | none => []
      let r := dispatchAll cam cEnv bufs alloc
      (r.1, some r.2.1, r.2.2.1, expEvs ++ r.2.2.2)

/-- Stage 4 of `threadLoop` (lines 319-331): sleep to the frame deadline when
more than 2 ms short of it. -/
def stagePace (frameDuration : Nat) (startRealTime workDone : Int) : List Ev :=
  if workDone < startRealTime + (frameDuration : Int) - 2000000 then
    [Ev.sleepTo (startRealTime + (frameDuration : Int))]
  else []

/-- One iteration of `QemuSensor::threadLoop`, as state transformer plus the
ordered event trace of the iteration.  Execution order as in the source:
control snapshot and VSync, `systemTime()` sample, readout handoff of the
previous capture, exposure notification and capture dispatch, pacing sleep. -/
def threadLoopStep (st : SensorState) (env : IterEnv) : SensorState × List Ev :=
  let s := snapshotControl st.control
  let r := stageReadout st env
  let c := stageCapture st.cam env.capEnv st.allocCounter s.1 env.startRealTime
  ({ control := s.2, readout := r.1, nextCapturedBuffers := c.2.1,
     nextCaptureTime := env.startRealTime, cam := c.1, allocCounter := c.2.2.1 },
   Ev.vsyncSignal :: Ev.timeSample env.startRealTime ::
     (r.2 ++ c.2.2.2 ++ stagePace s.1.frameDuration env.startRealTime env.workDoneRealTime))

/-- A concrete NV21 request buffer (640 x 480). -/
def nv21Buf0 : StreamBuffer :=
  { streamId := 3, width := 640, height := 480,
    format := HAL_PIXEL_FORMAT_YCbCr_420_888, stride := 640,
    dataSpace := DataSpace.unspecified, buffer := some 11, img := some ⟨50, 460800⟩ }

/-- A concrete non-depth BLOB request buffer (640 x 480). -/
def blobBuf0 : StreamBuffer :=
  { streamId := 1, width := 640, height := 480, format := HAL_PIXEL_FORMAT_BLOB,
    stride := 640, dataSpace := DataSpace.unspecified, buffer := some 7,
    img := some ⟨60, 100000⟩ }

/-- A concrete depth BLOB buffer (320 x 240). -/
def depthBuf0 : StreamBuffer :=
  { streamId := 2, width := 320, height := 240, format := HAL_PIXEL_FORMAT_BLOB,
    stride := 320, dataSpace := DataSpace.depth, buffer := some 9,
    img := some ⟨70, 230400⟩ }

/-- Upstream environment in which stop and start both succeed. -/
def envOk : CaptureEnv := ⟨Status.ok, Status.ok⟩

/-- A concrete sensor state: a pending destination set, a listener, and a set
captured by the previous iteration awaiting readout. -/
def st0 : SensorState :=
  { control := { frameDuration := 33331760, nextBuffers := some [nv21Buf0],
                 frameNumber := 1, listener := some 5, gotVSync := false },
    readout := { capturedBuffers := none, captureTime := 0 },
    nextCapturedBuffers := some [nv21Buf0], nextCaptureTime := 77,
    cam := camInit, allocCounter := 100 }

/-- A concrete iteration environment. -/
def env0 : IterEnv :=
  { startRealTime := 1000, workDoneRealTime := 1000,
    readoutAfterWait := ⟨none, 0⟩, capEnv := fun _ => envOk }

/-- Claim C4: every loop iteration snapshots the control slot under its lock -
copying frame duration, frame number and listener, taking the next-buffers
pointer while clearing the slot to null - and raises the VSync flag and
signals the VSync condition; hence a Buffers pointer installed by
`setDestinationBuffers` is consumed by at most one iteration: the snapshot
after the consuming one sees an empty slot. -/
theorem C4_control_snapshot (st : SensorState) (env : IterEnv) (c : ControlState)
    (bufs : Buffers) :
    (snapshotControl c).1 = ⟨c.frameDuration, c.nextBuffers, c.frameNumber, c.listener⟩ ∧
    (snapshotControl c).2.nextBuffers = none ∧
    (snapshotControl c).2.gotVSync = true ∧
    (snapshotControl c).2.frameDuration = c.frameDuration ∧
    (snapshotControl c).2.frameNumber = c.frameNumber ∧
    (snapshotControl c).2.listener = c.listener ∧
    (threadLoopStep st env).1.control = (snapshotControl st.control).2 ∧
    (threadLoopStep st env).2.head? = some Ev.vsyncSignal ∧
    (snapshotControl (setDestinationBuffers c (some bufs))).1.nextBuffers = some bufs ∧
    (snapshotControl (snapshotControl (setDestinationBuffers c (some bufs))).2).1.nextBuffers
      = none :=
  ⟨rfl, rfl, rfl, rfl, rfl, rfl, rfl, rfl, rfl, rfl⟩

/-- Claim C7, counterexample: `setFrameDuration` does not clamp; after
`setFrameDuration 0` the stored frame period is 0, outside the claimed
range `[33331760, 300000000]`. -/
theorem C7_counterexample :
    ¬ (kFrameDurationRange.1 ≤ (setFrameDuration initControlState 0).frameDuration ∧
       (setFrameDuration initControlState 0).frameDuration ≤ kFrameDurationRange.2) := by
  decide

/-- Claim C7 as amended: `setFrameDuration` stores its argument verbatim, with
no clamping; the stored period lies in `[33331760, 300000000]` exactly when
the argument does (the 6 caller guarantee), and the constructor initialises
the period to `kFrameDurationRange.1`, which is in range. -/
theorem C7_frame_duration_stored (c : ControlState) (ns : Nat) :
    (setFrameDuration c ns).frameDuration = ns ∧
    initControlState.frameDuration = kFrameDurationRange.1 ∧
    (kFrameDurationRange.1 ≤ ns → ns ≤ kFrameDurationRange.2 →
      kFrameDurationRange.1 ≤ (setFrameDuration c ns).frameDuration ∧
      (setFrameDuration c ns).frameDuration ≤ kFrameDurationRange.2) :=
  ⟨rfl, rfl, fun h1 h2 => ⟨h1, h2⟩⟩

/-- Witness for the amended C7 theorem at a concrete in-range duration. -/
theorem C7_frame_duration_stored_witness :
    kFrameDurationRange.1 ≤ 40000000 ∧ (40000000 : Nat) ≤ kFrameDurationRange.2 ∧
    kFrameDurationRange.1 ≤ (setFrameDuration initControlState 40000000).frameDuration :=
  ⟨by decide, by decide,
   ((C7_frame_duration_stored initControlState 40000000).2.2 (by decide) (by decide)).1⟩

/-- Claim C3, behavior at the failing input: the readout handoff guards its
single wait with an `if`, not a `while`; when the wait on `complete` returns
while the slot still holds the uncollected previous set, the worker stores
the new set anyway, so the previous set is overwritten before any consumer
collected it. -/
theorem C3_overwrite_on_full_wakeup :
    publishReadout ⟨some [nv21Buf0], 5⟩ ⟨some [nv21Buf0], 5⟩ [blobBuf0] 9 =
      (⟨some [blobBuf0], 9⟩, [Ev.readoutWait, Ev.readoutStore [blobBuf0] 9]) ∧
    ([nv21Buf0] : Buffers) ≠ [blobBuf0] :=
  ⟨rfl, by decide⟩

/-- Claim C6, counterexample: the claimed deadline-iff is false of the code.
The consumer waits once under an `if` (lines 157-166) and, on a timed-out
wait, returns false without re-checking the slot; POSIX permits the timed
wait to report a timeout even when the producer stored and signalled before
the deadline, so here a captured set became available before the deadline -
it sits in the slot when the wait returns - yet `waitForNewFrame` returns
false and leaves the set uncollected. -/
theorem C6_waitForNewFrame_counterexample :
    (waitForNewFrame ⟨none, 5⟩ WaitRes.timedOut ⟨some [nv21Buf0], 7⟩ 0).1 = false ∧
    (⟨some [nv21Buf0], 7⟩ : ReadoutState).capturedBuffers ≠ none ∧
    (waitForNewFrame ⟨none, 5⟩ WaitRes.timedOut ⟨some [nv21Buf0], 7⟩ 0).2.1.capturedBuffers
      = some [nv21Buf0] ∧
    (waitForNewFrame ⟨none, 5⟩ WaitRes.timedOut ⟨some [nv21Buf0], 7⟩ 0).2.2.2 = false :=
  ⟨rfl, by simp, rfl, rfl⟩

/-- Claim C6 as amended: `waitForNewFrame` returns true exactly when a
captured set is present on entry, or the single wait reports success and a
set is present when it returns - NOT whenever a set is or becomes available
before the deadline: after a timed-out or failed wait the code does not
re-check the slot, and a successful-but-spurious wakeup with an empty slot
also returns false.  On true it hands out the sensor timestamp of the
captured set, clears the slot and signals `complete`; on false it leaves the
slot as found and does not touch `*captureTime` or `complete`. -/
theorem C6_waitForNewFrame_amended (r : ReadoutState) (res : WaitRes)
    (rAfter : ReadoutState) (tIn : Int) :
    ((waitForNewFrame r res rAfter tIn).1 = true ↔
       (r.capturedBuffers ≠ none ∨
        (res = WaitRes.ok ∧ rAfter.capturedBuffers ≠ none))) ∧
    ((waitForNewFrame r res rAfter tIn).1 = true →
       (waitForNewFrame r res rAfter tIn).2.1.capturedBuffers = none ∧
       (waitForNewFrame r res rAfter tIn).2.2.2 = true ∧
       (waitForNewFrame r res rAfter tIn).2.2.1 =
         (match r.capturedBuffers with
          | some _ => r.captureTime
          | none => rAfter.captureTime)) ∧
    ((waitForNewFrame r res rAfter tIn).1 = false →
       (waitForNewFrame r res rAfter tIn).2.1 = rAfter ∧
       (waitForNewFrame r res rAfter tIn).2.2.1 = tIn ∧
       (waitForNewFrame r res rAfter tIn).2.2.2 = false) := by
  rcases r with ⟨rc, rt⟩
  rcases rAfter with ⟨ac, atime⟩
  cases rc with
  | some bs => simp [waitForNewFrame]
  | none =>
    cases res with
    | err c => simp [waitForNewFrame]
    | timedOut => simp [waitForNewFrame]
    | ok =>
        cases ac with
        | none => simp [waitForNewFrame]
        | some bs2 => simp [waitForNewFrame]

/-- Witness for the amended C6 theorem: slot full on entry, true branch
exercised at a concrete state. -/
theorem C6_waitForNewFrame_amended_witness :
    (waitForNewFrame ⟨some [nv21Buf0], 5⟩ WaitRes.timedOut ⟨none, 0⟩ 0).2.1.capturedBuffers
      = none ∧
    (waitForNewFrame ⟨some [nv21Buf0], 5⟩ WaitRes.timedOut ⟨none, 0⟩ 0).2.2.1 = 5 :=
  ⟨((C6_waitForNewFrame_amended ⟨some [nv21Buf0], 5⟩ WaitRes.timedOut ⟨none, 0⟩ 0).2.1
      rfl).1,
   ((C6_waitForNewFrame_amended ⟨some [nv21Buf0], 5⟩ WaitRes.timedOut ⟨none, 0⟩ 0).2.1
      rfl).2.2⟩

/-- The auxiliary buffer the BLOB branch builds for a primary buffer `b`,
with `alloc` the fresh allocation id.  The region size is the `uint32`
product of line 304, reduced mod `2 ^ 32`. -/
def auxFor (b : StreamBuffer) (alloc : Nat) : StreamBuffer :=
  { streamId := 0, width := b.width, height := b.height,
    format := HAL_PIXEL_FORMAT_YCbCr_420_888, stride := b.width,
    dataSpace := DataSpace.unspecified, buffer := none,
    img := some ⟨alloc, b.width * b.height * 3 % U32_MOD⟩ }

theorem dispatchBuffer_blob_eq (cam : CamState) (env : CaptureEnv) (b : StreamBuffer)
    (alloc : Nat) (hfmt : b.format = HAL_PIXEL_FORMAT_BLOB)
    (hds : b.dataSpace ≠ HAL_DATASPACE_DEPTH) :
    dispatchBuffer cam env b alloc = (cam, some (auxFor b alloc), alloc + 1, []) := by
  simp [dispatchBuffer, hfmt, hds, auxFor, HAL_PIXEL_FORMAT_BLOB,
    HAL_PIXEL_FORMAT_RGB_888, HAL_PIXEL_FORMAT_RGBA_8888]

/-- Claim C8: a buffer whose format is RGB_888, unknown, or BLOB with a DEPTH
dataspace is logged and skipped: the dispatch step issues no upstream call and
no fetch, modifies no state, appends no auxiliary buffer; the per-buffer loop
continues with the remaining buffers unchanged; and when the destination set
is non-null (and a listener is installed) the EXPOSURE_START event still
fires, whatever the buffer formats are. -/
theorem C8_skip_policy (cam : CamState) (env : CaptureEnv) (b : StreamBuffer) (alloc : Nat)
    (hskip : b.format = HAL_PIXEL_FORMAT_RGB_888 ∨
             (b.format = HAL_PIXEL_FORMAT_BLOB ∧ b.dataSpace = HAL_DATASPACE_DEPTH) ∨
             (b.format ≠ HAL_PIXEL_FORMAT_RGB_888 ∧ b.format ≠ HAL_PIXEL_FORMAT_RGBA_8888 ∧
              b.format ≠ HAL_PIXEL_FORMAT_BLOB ∧
              b.format ≠ HAL_PIXEL_FORMAT_YCbCr_420_888)) :
    dispatchBuffer cam env b alloc = (cam, none, alloc, [Ev.logSkip b.format]) ∧
    (∀ (cEnv : Nat → CaptureEnv) (bufs : Buffers) (i fuel : Nat) (h : i < bufs.length),
       bufs.get ⟨i, h⟩ = b →
       dispatchGo cam cEnv bufs i alloc (fuel + 1) =
         ((dispatchGo cam cEnv bufs (i + 1) alloc fuel).1,
          (dispatchGo cam cEnv bufs (i + 1) alloc fuel).2.1,
          (dispatchGo cam cEnv bufs (i + 1) alloc fuel).2.2.1,
          Ev.logSkip b.format :: (dispatchGo cam cEnv bufs (i + 1) alloc fuel).2.2.2)) ∧
    (∀ (st : SensorState) (env2 : IterEnv) (bufs : Buffers) (L : Nat),
       st.control.nextBuffers = some bufs → st.control.listener = some L →
       Ev.exposureStart st.control.frameNumber env2.startRealTime ∈
         (threadLoopStep st env2).2) := by
  have hstep : dispatchBuffer cam env b alloc = (cam, none, alloc, [Ev.logSkip b.format]) := by
    rcases hskip with h1 | ⟨h1, h2⟩ | ⟨h1, h2, h3, h4⟩
    · simp [dispatchBuffer, h1, captureRGB, HAL_PIXEL_FORMAT_RGB_888]
    · simp [dispatchBuffer, h1, h2, HAL_PIXEL_FORMAT_BLOB, HAL_PIXEL_FORMAT_RGB_888,
        HAL_PIXEL_FORMAT_RGBA_8888]
    · simp [dispatchBuffer, h1, h2, h3, h4]
  refine ⟨hstep, ?_, ?_⟩
  · intro cEnv bufs i fuel h hget
    have hstep2 : dispatchBuffer cam (cEnv i) b alloc =
        (cam, none, alloc, [Ev.logSkip b.format]) := by
      rcases hskip with h1 | ⟨h1, h2⟩ | ⟨h1, h2, h3, h4⟩
      · simp [dispatchBuffer, h1, captureRGB, HAL_PIXEL_FORMAT_RGB_888]
      · simp [dispatchBuffer, h1, h2, HAL_PIXEL_FORMAT_BLOB, HAL_PIXEL_FORMAT_RGB_888,
          HAL_PIXEL_FORMAT_RGBA_8888]
      · simp [dispatchBuffer, h1, h2, h3, h4]
    rw [dispatchGo]
    rw [dif_pos h, hget]
    simp only [hstep2]
    simp
  · intro st env2 bufs L hb hl
    simp [threadLoopStep, stageCapture, snapshotControl, hb, hl, List.mem_append]

/-- Witness for C8 at the concrete depth BLOB buffer. -/
theorem C8_skip_policy_witness :
    depthBuf0.format = HAL_PIXEL_FORMAT_BLOB ∧ depthBuf0.dataSpace = HAL_DATASPACE_DEPTH ∧
    dispatchBuffer camInit envOk depthBuf0 100 =
      (camInit, none, 100, [Ev.logSkip depthBuf0.format]) :=
  ⟨rfl, rfl, (C8_skip_policy camInit envOk depthBuf0 100 (Or.inr (Or.inl ⟨rfl, rfl⟩))).1⟩

theorem captureNV21_same (cam : CamState) (env : CaptureEnv) (img : Img) (w h s : Nat)
    (h1 : (w : Int) = cam.lastRequestWidth) (h2 : (h : Int) = cam.lastRequestHeight) :
    captureNV21 cam env img w h s =
      (cam, (if w ≠ s then [Ev.strideWarn w s] else []) ++
        [Ev.fetchYUV img (w * h * 12 % U32_MOD / 8)]) := by
  have hc : ¬((w : Int) ≠ cam.lastRequestWidth ∨ (h : Int) ≠ cam.lastRequestHeight) := by
    push_neg
    exact ⟨h1, h2⟩
  unfold captureNV21
  rw [if_neg hc]

theorem captureNV21_restart_ok (cam : CamState) (env : CaptureEnv) (img : Img) (w h s : Nat)
    (hd : (w : Int) ≠ cam.lastRequestWidth ∨ (h : Int) ≠ cam.lastRequestHeight)
    (hst : env.startRes = Status.ok) :
    captureNV21 cam env img w h s =
      (⟨(w : Int), (h : Int), DevState.started⟩,
       (if cam.lastRequestWidth ≠ -1 ∨ cam.lastRequestHeight ≠ -1 then [Ev.callStop]
        else []) ++
         [Ev.callStart V4L2_PIX_FMT_NV21 w h] ++
         (if w ≠ s then [Ev.strideWarn w s] else []) ++
         [Ev.fetchYUV img (w * h * 12 % U32_MOD / 8)]) := by
  rcases env with ⟨sres, tres⟩
  simp only at hst
  subst hst
  unfold captureNV21
  rw [if_pos hd]
  by_cases hsent : cam.lastRequestWidth ≠ -1 ∨ cam.lastRequestHeight ≠ -1
  · cases sres <;> simp [hsent]
  · cases sres <;> simp [hsent]

theorem captureNV21_restart_err (cam : CamState) (env : CaptureEnv) (img : Img)
    (w h s : Nat) (c : Int)
    (hd : (w : Int) ≠ cam.lastRequestWidth ∨ (h : Int) ≠ cam.lastRequestHeight)
    (hst : env.startRes = Status.err c) :
    captureNV21 cam env img w h s =
      ((if cam.lastRequestWidth ≠ -1 ∨ cam.lastRequestHeight ≠ -1 then
          (match env.stopRes with
           | Status.ok => { cam with devState := DevState.connected }
           | Status.err _ => cam)
        else cam),
       (if cam.lastRequestWidth ≠ -1 ∨ cam.lastRequestHeight ≠ -1 then [Ev.callStop]
        else []) ++ [Ev.callStart V4L2_PIX_FMT_NV21 w h]) := by
  rcases env with ⟨sres, tres⟩
  simp only at hst
  subst hst
  unfold captureNV21
  rw [if_pos hd]
  by_cases hsent : cam.lastRequestWidth ≠ -1 ∨ cam.lastRequestHeight ≠ -1
  · cases sres <;> simp [hsent]
  · cases sres <;> simp [hsent]

theorem captureRGBA_same (cam : CamState) (env : CaptureEnv) (img : Img) (w h s : Nat)
    (h1 : (w : Int) = cam.lastRequestWidth) (h2 : (h : Int) = cam.lastRequestHeight) :
    captureRGBA cam env img w h s =
      (cam, (if w ≠ s then [Ev.strideWarn w s] else []) ++
        [Ev.fetchRGBA img (w * h * 4 % U32_MOD)]) := by
  have hc : ¬((w : Int) ≠ cam.lastRequestWidth ∨ (h : Int) ≠ cam.lastRequestHeight) := by
    push_neg
    exact ⟨h1, h2⟩
  unfold captureRGBA
  rw [if_neg hc]

theorem captureRGBA_restart_ok (cam : CamState) (env : CaptureEnv) (img : Img) (w h s : Nat)
    (hd : (w : Int) ≠ cam.lastRequestWidth ∨ (h : Int) ≠ cam.lastRequestHeight)
    (hst : env.startRes = Status.ok) :
    captureRGBA cam env img w h s =
      (⟨(w : Int), (h : Int), DevState.started⟩,
       (if cam.lastRequestWidth ≠ -1 ∨ cam.lastRequestHeight ≠ -1 then [Ev.callStop]
        else []) ++
         [Ev.callStart V4L2_PIX_FMT_NV21 w h] ++
         (if w ≠ s then [Ev.strideWarn w s] else []) ++
         [Ev.fetchRGBA img (w * h * 4 % U32_MOD)]) := by
  rcases env with ⟨sres, tres⟩
  simp only at hst
  subst hst
  unfold captureRGBA
  rw [if_pos hd]
  by_cases hsent : cam.lastRequestWidth ≠ -1 ∨ cam.lastRequestHeight ≠ -1
  · cases sres <;> simp [hsent]
  · cases sres <;> simp [hsent]

theorem captureRGBA_restart_err (cam : CamState) (env : CaptureEnv) (img : Img)
    (w h s : Nat) (c : Int)
    (hd : (w : Int) ≠ cam.lastRequestWidth ∨ (h : Int) ≠ cam.lastRequestHeight)
    (hst : env.startRes = Status.err c) :
    captureRGBA cam env img w h s =
      ((if cam.lastRequestWidth ≠ -1 ∨ cam.lastRequestHeight ≠ -1 then
          (match env.stopRes with
           | Status.ok => { cam with devState := DevState.connected }
           | Status.err _ => cam)
        else cam),
       (if cam.lastRequestWidth ≠ -1 ∨ cam.lastRequestHeight ≠ -1 then [Ev.callStop]
        else []) ++ [Ev.callStart V4L2_PIX_FMT_NV21 w h]) := by
  rcases env with ⟨sres, tres⟩
  simp only at hst
  subst hst
  unfold captureRGBA
  rw [if_pos hd]
  by_cases hsent : cam.lastRequestWidth ≠ -1 ∨ cam.lastRequestHeight ≠ -1
  · cases sres <;> simp [hsent]
  · cases sres <;> simp [hsent]

/-- The resolution-latch contract of a capture routine `f` with fetch-event
family `fetch`: equal dimensions mean no upstream lifecycle call; differing
dimensions mean stop exactly when the latch is not the sentinel (stop first,
then start NV21 at the new dimensions), latch update and STARTED on start
success, latch untouched and no fetch on start failure, and CONNECTED when a
performed stop succeeded but the start failed. -/
def RestartLatchCorrect
    (f : CamState → CaptureEnv → Img → Nat → Nat → Nat → CamState × List Ev)
    (fetch : Img → Nat → Ev) : Prop :=
  ∀ (cam : CamState) (env : CaptureEnv) (img : Img) (width height stride : Nat),
    (((width : Int) = cam.lastRequestWidth ∧ (height : Int) = cam.lastRequestHeight) →
      (f cam env img width height stride).1 = cam ∧
      Ev.callStop ∉ (f cam env img width height stride).2 ∧
      (∀ p w2 h2, Ev.callStart p w2 h2 ∉ (f cam env img width height stride).2)) ∧
    (((width : Int) ≠ cam.lastRequestWidth ∨ (height : Int) ≠ cam.lastRequestHeight) →
      (Ev.callStop ∈ (f cam env img width height stride).2 ↔
        (cam.lastRequestWidth ≠ -1 ∨ cam.lastRequestHeight ≠ -1)) ∧
      Ev.callStart V4L2_PIX_FMT_NV21 width height ∈ (f cam env img width height stride).2 ∧
      ((cam.lastRequestWidth ≠ -1 ∨ cam.lastRequestHeight ≠ -1) →
        ∃ l, (f cam env img width height stride).2 =
          Ev.callStop :: Ev.callStart V4L2_PIX_FMT_NV21 width height :: l) ∧
      (env.startRes = Status.ok →
        (f cam env img width height stride).1.lastRequestWidth = width ∧
        (f cam env img width height stride).1.lastRequestHeight = height ∧
        (f cam env img width height stride).1.devState = DevState.started) ∧
      (∀ c, env.startRes = Status.err c →
        (f cam env img width height stride).1.lastRequestWidth = cam.lastRequestWidth ∧
        (f cam env img width height stride).1.lastRequestHeight = cam.lastRequestHeight ∧
        (∀ i2 s2, fetch i2 s2 ∉ (f cam env img width height stride).2)) ∧
      (∀ c, env.startRes = Status.err c → env.stopRes = Status.ok →
        (cam.lastRequestWidth ≠ -1 ∨ cam.lastRequestHeight ≠ -1) →
        (f cam env img width height stride).1.devState = DevState.connected))

/-- Claim C1: both `captureNV21` and `captureRGBA` implement the resolution
latch: if the requested dimensions differ from the latch (sentinel `(-1,-1)`
initially), the upstream device is stopped exactly when the latch is not the
sentinel (state CONNECTED on stop success), then started with NV21 and the
new dimensions; on start success the latch becomes `(width, height)` and the
state STARTED; on start failure the latch is unchanged and no frame is
fetched for that buffer; if the dimensions equal the latch, neither stop nor
start is called. -/
theorem C1_resolution_latch :
    RestartLatchCorrect captureNV21 Ev.fetchYUV ∧
    RestartLatchCorrect captureRGBA Ev.fetchRGBA := by
  constructor
  · intro cam env img w h s
    constructor
    · rintro ⟨h1, h2⟩
      rw [captureNV21_same cam env img w h s h1.symm.symm h2]
      refine ⟨rfl, ?_, ?_⟩
      · split_ifs <;> simp
      · intro p w2 h2
        split_ifs <;> simp
    · intro hd
      rcases hst : env.startRes with _ | c
      · rw [captureNV21_restart_ok cam env img w h s hd hst]
        refine ⟨?_, ?_, ?_, ?_, ?_, ?_⟩
        · by_cases hsent : cam.lastRequestWidth ≠ -1 ∨ cam.lastRequestHeight ≠ -1 <;>
            simp [hsent]
        · simp
        · intro hsent
          refine ⟨(if w ≠ s then [Ev.strideWarn w s] else []) ++
            [Ev.fetchYUV img (w * h * 12 % U32_MOD / 8)], ?_⟩
          simp [hsent]
        · intro _
          exact ⟨rfl, rfl, rfl⟩
        · intro c hc
          exact absurd hc (by simp)
        · intro c hc
          exact absurd hc (by simp)
      · rw [captureNV21_restart_err cam env img w h s c hd hst]
        refine ⟨?_, ?_, ?_, ?_, ?_, ?_⟩
        · by_cases hsent : cam.lastRequestWidth ≠ -1 ∨ cam.lastRequestHeight ≠ -1 <;>
            simp [hsent]
        · simp
        · intro hsent
          exact ⟨[], by simp [hsent]⟩
        · intro hok
          exact absurd hok (by simp)
        · intro c2 _
          refine ⟨?_, ?_, ?_⟩
          · by_cases hsent : cam.lastRequestWidth ≠ -1 ∨ cam.lastRequestHeight ≠ -1 <;>
              rcases env.stopRes <;> simp [hsent]
          · by_cases hsent : cam.lastRequestWidth ≠ -1 ∨ cam.lastRequestHeight ≠ -1 <;>
              rcases env.stopRes <;> simp [hsent]
          · intro i2 s2
            split_ifs <;> simp
        · intro c2 _ hstop hsent
          simp [hsent, hstop]
  · intro cam env img w h s
    constructor
    · rintro ⟨h1, h2⟩
      rw [captureRGBA_same cam env img w h s h1.symm.symm h2]
      refine ⟨rfl, ?_, ?_⟩
      · split_ifs <;> simp
      · intro p w2 h2
        split_ifs <;> simp
    · intro hd
      rcases hst : env.startRes with _ | c
      · rw [captureRGBA_restart_ok cam env img w h s hd hst]
        refine ⟨?_, ?_, ?_, ?_, ?_, ?_⟩
        · by_cases hsent : cam.lastRequestWidth ≠ -1 ∨ cam.lastRequestHeight ≠ -1 <;>
            simp [hsent]
        · simp
        · intro hsent
          refine ⟨(if w ≠ s then [Ev.strideWarn w s] else []) ++
            [Ev.fetchRGBA img (w * h * 4 % U32_MOD)], ?_⟩
          simp [hsent]
        · intro _
          exact ⟨rfl, rfl, rfl⟩
        · intro c hc
          exact absurd hc (by simp)
        · intro c hc
          exact absurd hc (by simp)
      · rw [captureRGBA_restart_err cam env img w h s c hd hst]
        refine ⟨?_, ?_, ?_, ?_, ?_, ?_⟩
        · by_cases hsent : cam.lastRequestWidth ≠ -1 ∨ cam.lastRequestHeight ≠ -1 <;>
            simp [hsent]
        · simp
        · intro hsent
          exact ⟨[], by simp [hsent]⟩
        · intro hok
          exact absurd hok (by simp)
        · intro c2 _
          refine ⟨?_, ?_, ?_⟩
          · by_cases hsent : cam.lastRequestWidth ≠ -1 ∨ cam.lastRequestHeight ≠ -1 <;>
              rcases env.stopRes <;> simp [hsent]
          · by_cases hsent : cam.lastRequestWidth ≠ -1 ∨ cam.lastRequestHeight ≠ -1 <;>
              rcases env.stopRes <;> simp [hsent]
          · intro i2 s2
            split_ifs <;> simp
        · intro c2 _ hstop hsent
          simp [hsent, hstop]

/-- Witness for C1: on a fresh sensor (sentinel latch) a 640 x 480 NV21
capture with a succeeding upstream start issues the NV21 start and latches
the dimensions. -/
theorem C1_resolution_latch_witness :
    ((640 : Int) ≠ camInit.lastRequestWidth ∨ (480 : Int) ≠ camInit.lastRequestHeight) ∧
    Ev.callStart V4L2_PIX_FMT_NV21 640 480 ∈
      (captureNV21 camInit envOk (some ⟨50, 460800⟩) 640 480 640).2 :=
  ⟨by decide,
   ((C1_resolution_latch.1 camInit envOk (some ⟨50, 460800⟩) 640 480 640).2
      (by decide)).2.1⟩

theorem captureNV21_fetch_mem (cam : CamState) (env : CaptureEnv) (img : Img)
    (w h s : Nat) (hst : env.startRes = Status.ok) :
    Ev.fetchYUV img (w * h * 12 % U32_MOD / 8) ∈ (captureNV21 cam env img w h s).2 := by
  by_cases hd : (w : Int) ≠ cam.lastRequestWidth ∨ (h : Int) ≠ cam.lastRequestHeight
  · rw [captureNV21_restart_ok cam env img w h s hd hst]
    simp
  · push_neg at hd
    rw [captureNV21_same cam env img w h s hd.1 hd.2]
    simp

/-- Claim C9: the dispatch loop re-reads the sequence length each step, so the
auxiliary buffer appended for a single non-depth BLOB request is itself
dispatched in the same iteration: `captureNV21` runs on the freshly allocated
`width * height * 3` region and (with the upstream start succeeding and no
`uint32` overflow) issues a YUV-path fetch of `width * height * 12 / 8`
bytes. -/
theorem C9_aux_dispatched (cam : CamState) (cEnv : Nat → CaptureEnv) (b : StreamBuffer)
    (alloc : Nat) (hfmt : b.format = HAL_PIXEL_FORMAT_BLOB)
    (hds : b.dataSpace ≠ HAL_DATASPACE_DEPTH)
    (hstart : (cEnv 1).startRes = Status.ok)
    (hfit : b.width * b.height * 12 < U32_MOD) :
    Ev.fetchYUV (some ⟨alloc, b.width * b.height * 3⟩) (b.width * b.height * 12 / 8) ∈
      (dispatchAll cam cEnv [b] alloc).2.2.2 := by
  have hmod : b.width * b.height * 12 % U32_MOD = b.width * b.height * 12 :=
    Nat.mod_eq_of_lt hfit
  have h0 : (0 : Nat) < List.length [b] := by simp
  have hgo : dispatchAll cam cEnv [b] alloc =
      dispatchGo cam cEnv [b] 0 alloc 2 := by
    simp [dispatchAll]
  rw [hgo, dispatchGo, dif_pos h0]
  simp only [List.get]
  simp only [dispatchBuffer_blob_eq cam (cEnv 0) b alloc hfmt hds]
  have h1 : (1 : Nat) < List.length ([b] ++ [auxFor b alloc]) := by simp
  rw [dispatchGo]
  simp only [List.cons_append, List.nil_append]
  rw [dif_pos (by simp : (1 : Nat) < List.length [b, auxFor b alloc])]
  simp only [List.get]
  have haux : dispatchBuffer cam (cEnv 1) (auxFor b alloc) (alloc + 1) =
      (let r := captureNV21 cam (cEnv 1) (auxFor b alloc).img (auxFor b alloc).width
         (auxFor b alloc).height (auxFor b alloc).stride
       (r.1, none, alloc + 1, r.2)) := by
    simp [dispatchBuffer, auxFor, HAL_PIXEL_FORMAT_YCbCr_420_888,
      HAL_PIXEL_FORMAT_RGB_888, HAL_PIXEL_FORMAT_RGBA_8888, HAL_PIXEL_FORMAT_BLOB]
  simp only [haux]
  have hmod3 : b.width * b.height * 3 % U32_MOD = b.width * b.height * 3 :=
    Nat.mod_eq_of_lt
      (lt_of_le_of_lt (Nat.mul_le_mul (Nat.le_refl (b.width * b.height)) (by norm_num)) hfit)
  have hmem := captureNV21_fetch_mem cam (cEnv 1) (auxFor b alloc).img
    (auxFor b alloc).width (auxFor b alloc).height (auxFor b alloc).stride hstart
  simp only [auxFor] at hmem ⊢
  simp only [hmod, hmod3] at hmem ⊢
  simp [List.mem_append]
  exact Or.inl hmem

/-- Witness for C9 at the concrete 640 x 480 BLOB buffer. -/
theorem C9_aux_dispatched_witness :
    blobBuf0.width * blobBuf0.height * 12 < U32_MOD ∧
    Ev.fetchYUV (some ⟨100, blobBuf0.width * blobBuf0.height * 3⟩)
        (blobBuf0.width * blobBuf0.height * 12 / 8) ∈
      (dispatchAll camInit (fun _ => envOk) [blobBuf0] 100).2.2.2 :=
  ⟨by decide,
   C9_aux_dispatched camInit (fun _ => envOk) blobBuf0 100 rfl (by decide) rfl
     (by decide)⟩

/-- Events the per-buffer dispatch can emit (upstream calls, fetches, logs,
stride warnings) - none of the loop-level events. -/
def isDispatchEv : Ev → Bool
  | Ev.callStop => true
  | Ev.callStart _ _ _ => true
  | Ev.fetchYUV _ _ => true
  | Ev.fetchRGBA _ _ => true
  | Ev.logSkip _ => true
  | Ev.strideWarn _ _ => true
  | _ => false

theorem captureNV21_evs_dispatch (cam : CamState) (env : CaptureEnv) (img : Img)
    (w h s : Nat) : ∀ e ∈ (captureNV21 cam env img w h s).2, isDispatchEv e = true := by
  intro e he
  by_cases hd : (w : Int) ≠ cam.lastRequestWidth ∨ (h : Int) ≠ cam.lastRequestHeight
  · rcases hst : env.startRes with _ | c
    · rw [captureNV21_restart_ok cam env img w h s hd hst] at he
      split_ifs at he <;> fin_cases he <;> rfl
    · rw [captureNV21_restart_err cam env img w h s c hd hst] at he
      split_ifs at he <;> fin_cases he <;> rfl
  · push_neg at hd
    rw [captureNV21_same cam env img w h s hd.1 hd.2] at he
    split_ifs at he <;> fin_cases he <;> rfl

theorem captureRGBA_evs_dispatch (cam : CamState) (env : CaptureEnv) (img : Img)
    (w h s : Nat) : ∀ e ∈ (captureRGBA cam env img w h s).2, isDispatchEv e = true := by
  intro e he
  by_cases hd : (w : Int) ≠ cam.lastRequestWidth ∨ (h : Int) ≠ cam.lastRequestHeight
  · rcases hst : env.startRes with _ | c
    · rw [captureRGBA_restart_ok cam env img w h s hd hst] at he
      split_ifs at he <;> fin_cases he <;> rfl
    · rw [captureRGBA_restart_err cam env img w h s c hd hst] at he
      split_ifs at he <;> fin_cases he <;> rfl
  · push_neg at hd
    rw [captureRGBA_same cam env img w h s hd.1 hd.2] at he
    split_ifs at he <;> fin_cases he <;> rfl

theorem dispatchBuffer_evs_dispatch (cam : CamState) (env : CaptureEnv) (b : StreamBuffer)
    (alloc : Nat) : ∀ e ∈ (dispatchBuffer cam env b alloc).2.2.2, isDispatchEv e = true := by
  intro e he
  unfold dispatchBuffer at he
  split_ifs at he
  · simp only [captureRGB] at he
    fin_cases he <;> rfl
  · exact captureRGBA_evs_dispatch cam env b.img b.width b.height b.stride e he
  · fin_cases he <;> rfl
  · simp at he
  · exact captureNV21_evs_dispatch cam env b.img b.width b.height b.stride e he
  · fin_cases he <;> rfl

theorem dispatchGo_evs_dispatch :
    ∀ (fuel : Nat) (cam : CamState) (cEnv : Nat → CaptureEnv) (bufs : Buffers)
      (i alloc : Nat),
      ∀ e ∈ (dispatchGo cam cEnv bufs i alloc fuel).2.2.2, isDispatchEv e = true := by
  intro fuel
  induction fuel with
  | zero =>
      intro cam cEnv bufs i alloc e he
      simp [dispatchGo] at he
  | succ n ih =>
      intro cam cEnv bufs i alloc e he
      rw [dispatchGo] at he
      by_cases h : i < bufs.length
      · rw [dif_pos h] at he
        simp only [List.mem_append] at he
        exact he.elim (fun h1 => dispatchBuffer_evs_dispatch _ _ _ _ e h1)
          (fun h2 => ih _ _ _ _ _ e h2)
      · rw [dif_neg h] at he
        simp at he

theorem stageCapture_evs (cam : CamState) (cEnv : Nat → CaptureEnv) (alloc : Nat)
    (snap : ControlSnapshot) (t : Int) :
    ∀ e ∈ (stageCapture cam cEnv alloc snap t).2.2.2,
      isDispatchEv e = true ∨ e = Ev.exposureStart snap.frameNumber t := by
  intro e he
  unfold stageCapture at he
  rcases hnb : snap.nextBuffers with _ | bufs
  · rw [hnb] at he
    simp at he
  · rw [hnb] at he
    simp only [List.mem_append] at he
    rcases he with he | he
    · rcases hl : snap.listener with _ | L
      · rw [hl] at he
        simp at he
      · rw [hl] at he
        simp at he
        exact Or.inr he
    · exact Or.inl (dispatchGo_evs_dispatch _ _ _ _ _ _ e he)

theorem threadLoopStep_store_inv (st : SensorState) (env : IterEnv) (b2 : Buffers)
    (t2 : Int)
    (hmem : Ev.readoutStore b2 t2 ∈ (threadLoopStep st env).2) :
    st.nextCapturedBuffers = some b2 ∧ t2 = st.nextCaptureTime := by
  have h := hmem
  simp only [threadLoopStep, List.mem_cons, List.mem_append] at h
  rcases h with h | h | h
  · exact absurd h (by simp)
  · exact absurd h (by simp)
  rcases h with (h | h) | h
  · rcases hcap : st.nextCapturedBuffers with _ | prev
    · rw [stageReadout, hcap] at h
      simp at h
    · rw [stageReadout, hcap] at h
      rcases hslot : st.readout.capturedBuffers with _ | old
      · simp [publishReadout, hslot] at h
        exact ⟨by rw [h.1], h.2⟩
      · simp [publishReadout, hslot] at h
        exact ⟨by rw [h.1], h.2⟩
  · have hc := stageCapture_evs st.cam env.capEnv st.allocCounter
      (snapshotControl st.control).1 env.startRealTime _ h
    rcases hc with hc | hc
    · simp [isDispatchEv] at hc
    · exact absurd hc (by simp)
  · rw [stagePace] at h
    split_ifs at h <;> simp at h

theorem threadLoopStep_expo_inv (st : SensorState) (env : IterEnv) (n : Nat) (t : Int)
    (hmem : Ev.exposureStart n t ∈ (threadLoopStep st env).2) :
    n = st.control.frameNumber ∧ t = env.startRealTime := by
  have h := hmem
  simp only [threadLoopStep, List.mem_cons, List.mem_append] at h
  rcases h with h | h | h
  · exact absurd h (by simp)
  · exact absurd h (by simp)
  rcases h with (h | h) | h
  · rcases hcap : st.nextCapturedBuffers with _ | prev
    · rw [stageReadout, hcap] at h
      simp at h
    · rw [stageReadout, hcap] at h
      rcases hslot : st.readout.capturedBuffers with _ | old
      · simp [publishReadout, hslot] at h
      · simp [publishReadout, hslot] at h
  · have hc := stageCapture_evs st.cam env.capEnv st.allocCounter
      (snapshotControl st.control).1 env.startRealTime _ h
    rcases hc with hc | hc
    · simp [isDispatchEv] at hc
    · have := Ev.exposureStart.inj hc
      exact ⟨this.1, this.2⟩
  · rw [stagePace] at h
    split_ifs at h <;> simp at h

theorem threadLoopStep_publishes (st : SensorState) (env : IterEnv) (prev : Buffers)
    (hprev : st.nextCapturedBuffers = some prev) :
    Ev.readoutStore prev st.nextCaptureTime ∈ (threadLoopStep st env).2 ∧
    (threadLoopStep st env).1.readout = ⟨some prev, st.nextCaptureTime⟩ := by
  constructor
  · rcases hslot : st.readout.capturedBuffers with _ | old <;>
      simp [threadLoopStep, stageReadout, publishReadout, hprev, hslot]
  · rcases hslot : st.readout.capturedBuffers with _ | old <;>
      simp [threadLoopStep, stageReadout, publishReadout, hprev, hslot]

theorem threadLoopStep_captures (st : SensorState) (env : IterEnv) (bufs : Buffers)
    (hbufs : st.control.nextBuffers = some bufs) :
    (threadLoopStep st env).1.nextCapturedBuffers =
      some (dispatchAll st.cam env.capEnv bufs st.allocCounter).2.1 := by
  simp [threadLoopStep, stageCapture, snapshotControl, hbufs]

/-- Claim C5: within one iteration the events are ordered VSync, then the
readout-available of the set captured in the previous iteration, then
EXPOSURE_START; every readout published by the iteration is exactly the
captured set of the previous iteration; and the set captured in this iteration is
retained in `nextCapturedBuffers` and only published by the step of the following
iteration. -/
theorem C5_pipeline_order (st : SensorState) (env env2 : IterEnv) (prev bufs : Buffers)
    (L : Nat)
    (hprev : st.nextCapturedBuffers = some prev)
    (hbufs : st.control.nextBuffers = some bufs)
    (hlist : st.control.listener = some L) :
    (∃ l1 l2 l3, (threadLoopStep st env).2 =
        Ev.vsyncSignal :: (l1 ++ Ev.readoutStore prev st.nextCaptureTime ::
          (l2 ++ Ev.exposureStart st.control.frameNumber env.startRealTime :: l3))) ∧
    (∀ b2 t2, Ev.readoutStore b2 t2 ∈ (threadLoopStep st env).2 →
        b2 = prev ∧ t2 = st.nextCaptureTime) ∧
    ((threadLoopStep st env).1.nextCapturedBuffers =
        some (dispatchAll st.cam env.capEnv bufs st.allocCounter).2.1) ∧
    Ev.readoutStore (dispatchAll st.cam env.capEnv bufs st.allocCounter).2.1
        env.startRealTime ∈ (threadLoopStep (threadLoopStep st env).1 env2).2 := by
  refine ⟨?_, ?_, threadLoopStep_captures st env bufs hbufs, ?_⟩
  · rcases hslot : st.readout.capturedBuffers with _ | old
    · refine ⟨[Ev.timeSample env.startRealTime], [],
        (dispatchAll st.cam env.capEnv bufs st.allocCounter).2.2.2 ++
          stagePace st.control.frameDuration env.startRealTime env.workDoneRealTime, ?_⟩
      simp [threadLoopStep, stageReadout, publishReadout, stageCapture, snapshotControl,
        hprev, hbufs, hlist, hslot]
    · refine ⟨[Ev.timeSample env.startRealTime, Ev.readoutWait], [],
        (dispatchAll st.cam env.capEnv bufs st.allocCounter).2.2.2 ++
          stagePace st.control.frameDuration env.startRealTime env.workDoneRealTime, ?_⟩
      simp [threadLoopStep, stageReadout, publishReadout, stageCapture, snapshotControl,
        hprev, hbufs, hlist, hslot]
  · intro b2 t2 hmem
    have h := threadLoopStep_store_inv st env b2 t2 hmem
    rw [hprev] at h
    exact ⟨(Option.some.inj h.1).symm, h.2⟩
  · have hD := threadLoopStep_captures st env bufs hbufs
    have hp := threadLoopStep_publishes (threadLoopStep st env).1 env2 _ hD
    exact hp.1

/-- Witness for C5 at the concrete state `st0`. -/
theorem C5_pipeline_order_witness :
    st0.nextCapturedBuffers = some [nv21Buf0] ∧
    Ev.readoutStore (dispatchAll st0.cam env0.capEnv [nv21Buf0] st0.allocCounter).2.1
        env0.startRealTime ∈ (threadLoopStep (threadLoopStep st0 env0).1 env0).2 :=
  ⟨rfl, (C5_pipeline_order st0 env0 env0 [nv21Buf0] [nv21Buf0] 5 rfl rfl rfl).2.2.2⟩

/-- Claim C10: the capture timestamp of an iteration is the monotonic time
sampled right after the control snapshot - before the handoff of the previous
readout and before any fetch - and that same time is the EXPOSURE_START
timestamp, the timestamp of the readout published in the following iteration,
and the `captureTime` a consumer receives from `waitForNewFrame`. -/
theorem C10_capture_timestamp (st : SensorState) (env env2 : IterEnv) (bufs : Buffers)
    (hbufs : st.control.nextBuffers = some bufs) :
    (threadLoopStep st env).1.nextCaptureTime = env.startRealTime ∧
    (∃ rest, (threadLoopStep st env).2 =
       Ev.vsyncSignal :: Ev.timeSample env.startRealTime :: rest) ∧
    (∀ n t, Ev.exposureStart n t ∈ (threadLoopStep st env).2 → t = env.startRealTime) ∧
    (∀ b2 t2, Ev.readoutStore b2 t2 ∈ (threadLoopStep (threadLoopStep st env).1 env2).2 →
       t2 = env.startRealTime) ∧
    (∀ res rAfter tIn,
       (waitForNewFrame (threadLoopStep (threadLoopStep st env).1 env2).1.readout
          res rAfter tIn).1 = true ∧
       (waitForNewFrame (threadLoopStep (threadLoopStep st env).1 env2).1.readout
          res rAfter tIn).2.2.1 = env.startRealTime) := by
  refine ⟨rfl, ⟨_, rfl⟩, ?_, ?_, ?_⟩
  · intro n t hmem
    exact (threadLoopStep_expo_inv st env n t hmem).2
  · intro b2 t2 hmem
    exact (threadLoopStep_store_inv _ env2 b2 t2 hmem).2
  · intro res rAfter tIn
    have hD := threadLoopStep_captures st env bufs hbufs
    have hp := threadLoopStep_publishes (threadLoopStep st env).1 env2 _ hD
    rw [hp.2]
    refine ⟨?_, ?_⟩ <;> simp [waitForNewFrame] <;> rfl

/-- Witness for C10 at the concrete state `st0`. -/
theorem C10_capture_timestamp_witness :
    st0.control.nextBuffers = some [nv21Buf0] ∧
    (threadLoopStep st0 env0).1.nextCaptureTime = env0.startRealTime :=
  ⟨rfl, (C10_capture_timestamp st0 env0 env0 [nv21Buf0] rfl).1⟩
